import Mathlib

/-!
Verification of the platform ingestion and synchronization engine of the
ContentDashboard repository.

The definitions below are a shallow embedding of the Python source:

* `src/scraper.py` — `TikTokScraper` (average computation, viral
  classification, post upsert, viral alerting, profile removal, bulk sync)
  and the module-level `update_all_profiles` orchestrator;
* `src/services/tiktok_client.py` — `TikTokClient._make_request` (global
  pacing, 429 retry loop with escalating backoff);
* `src/services/telegram_notifier.py` — the delivery outcome surface of
  `TelegramNotifier` as observed by the scraper.

Python floats are modelled by exact rationals (`ℚ`); all concrete values in
the claims are far from any rounding boundary.  Engagement counters are
natural numbers (they originate from non-negative JSON integers).  String
fields that never influence the verified control flow (captions, media
URLs, timestamps, rendered message text) are elided from the records.
-/

namespace ContentDashboard

/-- Fetched post data: the `TikTokPost` dataclass of
`services/tiktok_client.py`.  Media and timestamp fields are elided: they
are copied verbatim and never tested by the logic under verification. -/
structure TikTokPost where
  post_id : String
  view_count : Nat
  like_count : Nat
  comment_count : Nat
  share_count : Nat
deriving DecidableEq

/-- Stored content row: the `Post` model of `database/models.py`, restricted
to the columns read or written by the scraper logic under verification. -/
structure Post where
  id : Nat
  profile_id : Nat
  platform : String
  platform_post_id : String
  tiktok_post_id : String
  view_count : Nat
  like_count : Nat
  comment_count : Nat
  share_count : Nat
  is_viral : Bool
  viral_alert_sent : Bool
deriving DecidableEq

instance : Inhabited Post :=
  ⟨{ id := 0, profile_id := 0, platform := "", platform_post_id := "",
     tiktok_post_id := "", view_count := 0, like_count := 0,
     comment_count := 0, share_count := 0, is_viral := false,
     viral_alert_sent := false }⟩

/-- A `PostHistory` row (the ContentSnapshot of the spec), as written by the
`_upsert_post` significant-change branch. -/
structure PostHistory where
  post_id : Nat
  view_count : Nat
  like_count : Nat
  comment_count : Nat
  share_count : Nat
deriving DecidableEq

/-- `TikTokScraper._calculate_average_views`: mean view count over the
fetched posts, restricted to posts with a strictly positive view count;
an empty list (or an all-zero list) yields `0`. -/
def calculate_average_views (posts : List TikTokPost) : ℚ :=
  if posts.isEmpty then 0
  else
    let view_counts := (posts.filter (fun p => 0 < p.view_count)).map
      (fun p => (p.view_count : ℚ))
    if view_counts.isEmpty then 0
    else view_counts.sum / (view_counts.length : ℚ)

/-- The viral comparison `post_data.view_count > (avg_views *
self.viral_threshold)` shared by `_create_post_record` (line 590) and
`_upsert_post` (line 627) of `src/scraper.py`.  The threshold is
`config.VIRAL_THRESHOLD_MULTIPLIER` (default `5.0`). -/
def is_viral_check (view_count : Nat) (avg_views threshold : ℚ) : Bool :=
  decide ((view_count : ℚ) > avg_views * threshold)

/-- Division exactly as Python evaluates it: a zero divisor raises
`ZeroDivisionError`, modelled by `none`. -/
def pyDiv (x y : ℚ) : Option ℚ :=
  if y = 0 then none else some (x / y)

/-- The snapshot guard of `_upsert_post` (line 653 of `src/scraper.py`):
`old_views > 0 and abs(post_data.view_count - old_views) / old_views > 0.1`.
The Python `and` short-circuits, so the division is only evaluated when
`old_views > 0`; the result is `none` exactly when Python would raise
`ZeroDivisionError`. -/
def views_changed_significantly (old_views new_views : Nat) : Option Bool :=
  if 0 < old_views then
    (pyDiv |(new_views : ℚ) - (old_views : ℚ)| (old_views : ℚ)).map
      (fun r => decide (r > 1 / 10))
  else some false

/-- `TikTokScraper._create_post_record`: build a fresh `Post` row from
fetched data, classifying virality against the supplied average.  The row
id is assigned by the database; it is threaded explicitly here. -/
def create_post_record (threshold : ℚ) (row_id profile_id : Nat)
    (d : TikTokPost) (avg_views : ℚ) : Post :=
  { id := row_id
    profile_id := profile_id
    platform := "tiktok"
    platform_post_id := d.post_id
    tiktok_post_id := d.post_id
    view_count := d.view_count
    like_count := d.like_count
    comment_count := d.comment_count
    share_count := d.share_count
    is_viral := is_viral_check d.view_count avg_views threshold
    viral_alert_sent := false }

/-- The `existing` branch of `TikTokScraper._upsert_post` (lines 634-663):
overwrite the engagement counters, set `is_viral` if newly viral, compute
alert eligibility, and append a `PostHistory` row when the view count moved
by more than 10% relative to the stored value.  Returns
`(updated row, should_alert, optional history row)`. -/
def upsert_existing (threshold : ℚ) (existing : Post) (d : TikTokPost)
    (avg_views : ℚ) : Post × Bool × Option PostHistory :=
  let is_viral := is_viral_check d.view_count avg_views threshold
  let old_views := existing.view_count
  let updated := { existing with
    view_count := d.view_count
    like_count := d.like_count
    comment_count := d.comment_count
    share_count := d.share_count
    is_viral := existing.is_viral || is_viral }
  let should_alert := is_viral && !existing.viral_alert_sent
  let history :=
    if (views_changed_significantly old_views d.view_count).getD false then
      some { post_id := existing.id
             view_count := d.view_count
             like_count := d.like_count
             comment_count := d.comment_count
             share_count := d.share_count }
    else none
  (updated, should_alert, history)

/-- An `AlertLog` row (the AlertRecord of the spec), restricted to the
fields the verified logic writes meaningfully; the rendered message text
and timestamp are elided. -/
structure AlertLog where
  post_id : Nat
  profile_id : Nat
  alert_type : String
  success : Bool
  error_message : Option String
deriving DecidableEq

/-- Outcome of the call `self.telegram.send_viral_alert(...)` as observed by
`TikTokScraper._send_viral_alert`.  `TelegramNotifier.send_message` catches
`httpx.HTTPError` and converts it into a returned dict with an `ok` flag
(`returns false err`); any other exception escaping the notifier — e.g.
`response.json()` raising on a non-JSON 2xx body, which the
`except httpx.HTTPError` handler does not catch — is `raises`. -/
inductive DeliveryOutcome where
  | returns (ok : Bool) (error : Option String)
  | raises (exn : String)
deriving DecidableEq

/-- `true` iff the delivery call returned a result dict (did not raise). -/
def DeliveryOutcome.isReturns : DeliveryOutcome → Bool
  | .returns _ _ => true
  | .raises _ => false

/-- `TikTokScraper._send_viral_alert` (lines 674-723 of `src/scraper.py`).
On a returned result: `success = result.get("ok", False)`, the row's
`viral_alert_sent` is set, and one `AlertLog` is appended — but the
`AlertLog` message interpolation divides `post_data.view_count` by
`avg_views`, so when `avg_views = 0` a `ZeroDivisionError` lands in the
`except` branch *after* the flag was already set, and the appended log
records the failure.  On a raised delivery the `except` branch appends a
failure `AlertLog` and the flag is left untouched.  Returns the (possibly
updated) row and the single appended log. -/
def send_viral_alert (outcome : DeliveryOutcome) (profile_id : Nat)
    (avg_views : ℚ) (post_record : Post) : Post × AlertLog :=
  match outcome with
  | .raises exn =>
      (post_record,
       { post_id := post_record.id, profile_id := profile_id,
         alert_type := "viral_post", success := false,
         error_message := some exn })
  | .returns ok err =>
      let marked := { post_record with viral_alert_sent := true }
      if avg_views = 0 then
        (marked,
         { post_id := post_record.id, profile_id := profile_id,
           alert_type := "viral_post", success := false,
           error_message := some "ZeroDivisionError" })
      else
        (marked,
         { post_id := post_record.id, profile_id := profile_id,
           alert_type := "viral_post", success := ok,
           error_message := if ok then none else some (err.getD "None") })

/-- One sync cycle observed by a single content row: the fresh metrics, the
pre-update average the scraper passes to `_upsert_post` and
`_send_viral_alert`, and the outcome of the delivery attempt. -/
structure CycleInput where
  data : TikTokPost
  avg_views : ℚ
  delivery : DeliveryOutcome

/-- The per-row slice of an update cycle in `TikTokScraper.update_profile` /
`update_profile_by_id`: upsert the row against the fetched data, then, if
alert-eligible, run `_send_viral_alert`.  Returns the resulting row, whether
a notification was triggered, and the appended alert logs. -/
def run_cycle (threshold : ℚ) (profile_id : Nat) (post : Post)
    (inp : CycleInput) : Post × Bool × List AlertLog :=
  let step := upsert_existing threshold post inp.data inp.avg_views
  if step.2.1 then
    let sent := send_viral_alert inp.delivery profile_id inp.avg_views step.1
    (sent.1, true, [sent.2])
  else (step.1, false, [])

/-- A sequence of update cycles over one content row; counts triggered
notifications. -/
def run_cycles (threshold : ℚ) (profile_id : Nat) :
    Post → List CycleInput → Post × Nat
  | post, [] => (post, 0)
  | post, inp :: rest =>
      let step := run_cycle threshold profile_id post inp
      let next := run_cycles threshold profile_id step.1 rest
      (next.1, (if step.2.1 then 1 else 0) + next.2)

/-- Fetched account data: the `TikTokProfile` dataclass of
`services/tiktok_client.py` (display name, bio and avatar elided — they are
copied verbatim and never tested). -/
structure TikTokProfileData where
  user_id : String
  username : String
  follower_count : Nat
  following_count : Nat
  total_likes : Nat
  video_count : Nat
deriving DecidableEq

/-- Stored account row: the `Profile` model of `database/models.py`,
restricted to the columns the scraper logic reads or writes.  An empty
`tiktok_user_id` string models a NULL / missing cached secUid (falsy in the
Python truth tests). -/
structure Profile where
  id : Nat
  platform : String
  tiktok_user_id : String
  username : String
  follower_count : Nat
  following_count : Nat
  total_likes : Nat
  video_count : Nat
  average_post_views : ℚ
  is_active : Bool
deriving DecidableEq

/-- A `ProfileHistory` row (the AccountSnapshot of the spec). -/
structure ProfileHistory where
  profile_id : Nat
  follower_count : Nat
  following_count : Nat
  total_likes : Nat
  video_count : Nat
  follower_change : Int
  likes_change : Int
deriving DecidableEq

/-- The persistent store, as touched by the engine: the five entity tables
plus the id sequence for content rows. -/
structure DB where
  profiles : List Profile
  posts : List Post
  post_history : List PostHistory
  profile_history : List ProfileHistory
  alert_logs : List AlertLog
  next_post_id : Nat
deriving DecidableEq

/-- Normalization applied to handles throughout `src/scraper.py`:
`username.lstrip("@").strip().lower()` — drop leading `@` characters, strip
surrounding whitespace, lowercase.  Implemented over the character list. -/
def normalize_handle (s : String) : String :=
  String.mk
    (((((s.data.dropWhile (· = '@')).dropWhile Char.isWhitespace).reverse.dropWhile
        Char.isWhitespace).reverse).map Char.toLower)

/-- `TikTokScraper.remove_profile` (lines 541-561 of `src/scraper.py`):
normalize the handle, look the row up by username (the query does not
filter on `is_active`), clear the active flag if found, and report whether
a row was found.  No row is ever deleted. -/
def remove_profile (db : DB) (username : String) : DB × Bool :=
  let u := normalize_handle username
  match db.profiles.find? (fun p => p.username == u) with
  | some prof =>
      let updated := db.profiles.map
        (fun p => if p.id == prof.id then { p with is_active := false } else p)
      ({ db with profiles := updated }, true)
  | none => (db, false)

/-- Replace the stored row carrying a given id (ORM identity: mutations on
a loaded row are written back to the row with that primary key). -/
def replacePost (posts : List Post) (row_id : Nat) (updated : Post) :
    List Post :=
  posts.map (fun p => if p.id == row_id then updated else p)

/-- `TikTokScraper._upsert_post` (lines 614-672): look the row up by
`tiktok_post_id`; update it or insert a fresh row.  Returns
`((is_new, should_alert, row), new store)`. -/
def upsert_post (threshold : ℚ) (db : DB) (profile_id : Nat)
    (d : TikTokPost) (avg_views : ℚ) : (Bool × Bool × Post) × DB :=
  match db.posts.find? (fun p => p.tiktok_post_id == d.post_id) with
  | some existing =>
      let step := upsert_existing threshold existing d avg_views
      let db1 := { db with
        posts := replacePost db.posts existing.id step.1
        post_history := db.post_history ++ step.2.2.toList }
      ((false, step.2.1, step.1), db1)
  | none =>
      let post := create_post_record threshold db.next_post_id profile_id d avg_views
      (((true, is_viral_check d.view_count avg_views threshold, post)),
       { db with posts := db.posts ++ [post], next_post_id := db.next_post_id + 1 })

/-- The upsert loop of the update cycle: upsert every fetched item and
collect the alert-eligible rows in order (`viral_posts` in the source). -/
def upsert_posts (threshold : ℚ) (profile_id : Nat) (avg_views : ℚ) :
    DB → List TikTokPost → DB × List Post
  | db, [] => (db, [])
  | db, d :: rest =>
      let step := upsert_post threshold db profile_id d avg_views
      let next := upsert_posts threshold profile_id avg_views step.2 rest
      (next.1, (if step.1.2.1 then [step.1.2.2] else []) ++ next.2)

/-- The alert loop of the update cycle: run `_send_viral_alert` on each
alert-eligible row in order, writing the updated row and the appended
`AlertLog` back to the store.  `deliveries k` is the outcome of the `k`-th
delivery attempt of this cycle. -/
def send_alerts (profile_id : Nat) (avg_views : ℚ)
    (deliveries : Nat → DeliveryOutcome) :
    DB → List Post → Nat → DB
  | db, [], _ => db
  | db, p :: rest, k =>
      let sent := send_viral_alert (deliveries k) profile_id avg_views p
      send_alerts profile_id avg_views deliveries
        { db with posts := replacePost db.posts p.id sent.1
                  alert_logs := db.alert_logs ++ [sent.2] }
        rest (k + 1)

/-- The outcome of the remote fetch phase of one account update, as seen by
`update_profile_by_id`: either both fetches return data, or a
`TikTokAPIError` is raised (parse / network / timeout / auth / validation
failures are all wrapped into it by `TikTokClient`), or a `RateLimitError`
is raised after retry exhaustion (a distinct exception class, *not* a
subclass of `TikTokAPIError`). -/
inductive FetchOutcome where
  | ok (profile : TikTokProfileData) (posts : List TikTokPost)
  | apiError (msg : String)
  | rateLimited
deriving DecidableEq

/-- Exceptions that can escape one per-account update into the bulk-sync
loop. -/
inductive PyExn where
  | rateLimitError
  | notImplementedError
deriving DecidableEq

/-- `TikTokScraper.update_profile_by_id` (lines 383-496 of
`src/scraper.py`).  A missing profile returns `None`; a `TikTokAPIError`
from the fetch phase is caught (lines 435-437) and also returns `None`; a
`RateLimitError` propagates.  On fetched data: overwrite the mutable
account fields (storing the cached secUid if present, else the freshly
resolved one), recompute the rolling average from the fetched posts, append
one `ProfileHistory` row with deltas against the old values, upsert every
fetched post against the *pre-update* stored average, commit, then send one
alert per eligible row.  Returns the new store and the call result
(`Except` error = a raised exception). -/
def update_profile_by_id (threshold : ℚ) (db : DB) (profile_id : Nat)
    (fetch : FetchOutcome) (deliveries : Nat → DeliveryOutcome) :
    DB × Except PyExn (Option Profile) :=
  match db.profiles.find? (fun p => p.id == profile_id) with
  | none => (db, .ok none)
  | some profile =>
    match fetch with
    | .apiError _ => (db, .ok none)
    | .rateLimited => (db, .error .rateLimitError)
    | .ok pdata posts =>
      let old_follower_count := profile.follower_count
      let old_likes := profile.total_likes
      let old_avg_views := profile.average_post_views
      let cached_user_id := profile.tiktok_user_id
      let new_avg_views := calculate_average_views posts
      let stored_uid := if cached_user_id ≠ "" then cached_user_id else pdata.user_id
      let profile2 := { profile with
        tiktok_user_id := stored_uid
        follower_count := pdata.follower_count
        following_count := pdata.following_count
        total_likes := pdata.total_likes
        video_count := pdata.video_count
        average_post_views := new_avg_views }
      let hist : ProfileHistory :=
        { profile_id := profile.id
          follower_count := pdata.follower_count
          following_count := pdata.following_count
          total_likes := pdata.total_likes
          video_count := pdata.video_count
          follower_change := (pdata.follower_count : Int) - (old_follower_count : Int)
          likes_change := (pdata.total_likes : Int) - (old_likes : Int) }
      let db1 := { db with
        profiles := db.profiles.map
          (fun p => if p.id == profile_id then profile2 else p)
        profile_history := db.profile_history ++ [hist] }
      let upserted := upsert_posts threshold profile_id old_avg_views db1 posts
      let db3 := send_alerts profile_id old_avg_views deliveries upserted.1 upserted.2 0
      (db3, .ok (some profile2))

/-- The post-insertion loop of `TikTokScraper.add_profile` (lines 229-238):
every fetched item is inserted as a fresh row via `_create_post_record`,
classified against the supplied (just-computed) average. -/
def insert_posts (threshold : ℚ) (profile_id : Nat) (avg_views : ℚ) :
    DB → List TikTokPost → DB
  | db, [] => db
  | db, d :: rest =>
      insert_posts threshold profile_id avg_views
        { db with
          posts := db.posts ++ [create_post_record threshold db.next_post_id profile_id d avg_views]
          next_post_id := db.next_post_id + 1 }
        rest

/-- The fresh-account path of `TikTokScraper.add_profile` (lines 190-240):
compute the average over the fetched posts, insert the account row (with
the resolved secUid and the just-computed average), one initial
`ProfileHistory` row with zero deltas, and one content row per fetched
item, each classified against the just-computed average. -/
def add_profile_fresh (threshold : ℚ) (db : DB) (new_profile_id : Nat)
    (pdata : TikTokProfileData) (posts : List TikTokPost) : DB × Profile :=
  let avg_views := calculate_average_views posts
  let profile : Profile :=
    { id := new_profile_id
      platform := "tiktok"
      tiktok_user_id := pdata.user_id
      username := pdata.username
      follower_count := pdata.follower_count
      following_count := pdata.following_count
      total_likes := pdata.total_likes
      video_count := pdata.video_count
      average_post_views := avg_views
      is_active := true }
  let hist : ProfileHistory :=
    { profile_id := new_profile_id
      follower_count := pdata.follower_count
      following_count := pdata.following_count
      total_likes := pdata.total_likes
      video_count := pdata.video_count
      follower_change := 0
      likes_change := 0 }
  let db1 := { db with
    profiles := db.profiles ++ [profile]
    profile_history := db.profile_history ++ [hist] }
  (insert_posts threshold new_profile_id avg_views db1 posts, profile)

/-- The aggregate report returned by the module-level `update_all_profiles`
(`{"success": n, "failed": m, "by_platform": {...}}`). -/
structure SyncReport where
  success : Nat
  failed : Nat
  by_platform : List (String × Nat × Nat)
deriving DecidableEq

/-- The platforms registered in `ScraperFactory._scrapers`. -/
def supported_platforms : List String := ["tiktok", "twitter", "reddit"]

/-- Group the active profiles by platform in first-seen order, defaulting
an empty platform to `tiktok` — the grouping loop of the module-level
`update_all_profiles` (lines 889-896), with Python dict insertion order. -/
def group_by_platform (ps : List Profile) : List (String × List Profile) :=
  ps.foldl
    (fun acc p =>
      let key := if p.platform = "" then "tiktok" else p.platform
      if acc.any (fun g => g.1 == key) then
        acc.map (fun g => if g.1 == key then (g.1, g.2 ++ [p]) else g)
      else acc ++ [(key, [p])])
    []

/-- The inner account loop of the module-level `update_all_profiles` (lines
913-928) for the tiktok scraper: each account's `update_profile_by_id` call
that *returns* (even `None`) increments `success`; a raised exception is
caught, logged, and increments `failed`. -/
def run_tiktok_accounts (threshold : ℚ) (fetch : Nat → FetchOutcome)
    (deliveries : Nat → Nat → DeliveryOutcome) :
    DB → List Profile → DB × Nat × Nat
  | db, [] => (db, 0, 0)
  | db, p :: rest =>
      let step := update_profile_by_id threshold db p.id (fetch p.id) (deliveries p.id)
      let next := run_tiktok_accounts threshold fetch deliveries step.1 rest
      match step.2 with
      | .ok _ => (next.1, next.2.1 + 1, next.2.2)
      | .error _ => (next.1, next.2.1, next.2.2 + 1)

/-- One platform group of the module-level `update_all_profiles`: the
tiktok scraper runs the account loop; the twitter and reddit scraper stubs
raise `NotImplementedError` on every account (each caught and counted
failed); an unregistered platform makes `ScraperFactory.get_scraper` raise
`ValueError`, counting the whole group failed and continuing. -/
def run_platform_group (threshold : ℚ) (fetch : Nat → FetchOutcome)
    (deliveries : Nat → Nat → DeliveryOutcome) (db : DB)
    (platform : String) (group : List Profile) : DB × Nat × Nat :=
  if platform = "tiktok" then
    run_tiktok_accounts threshold fetch deliveries db group
  else if platform ∈ supported_platforms then
    (db, 0, group.length)
  else
    (db, 0, group.length)

/-- The module-level `update_all_profiles` (lines 879-935 of
`src/scraper.py`): group the active profiles by platform, run each group,
and accumulate total and per-platform success/failure counts. -/
def update_all_profiles (threshold : ℚ) (db : DB)
    (fetch : Nat → FetchOutcome)
    (deliveries : Nat → Nat → DeliveryOutcome) : DB × SyncReport :=
  let groups := group_by_platform (db.profiles.filter (fun p => p.is_active))
  let run := fun (acc : DB × SyncReport) (g : String × List Profile) =>
    let step := run_platform_group threshold fetch deliveries acc.1 g.1 g.2
    (step.1,
     { success := acc.2.success + step.2.1
       failed := acc.2.failed + step.2.2
       by_platform := acc.2.by_platform ++ [(g.1, step.2.1, step.2.2)] })
  groups.foldl run (db, { success := 0, failed := 0, by_platform := [] })

/-- The response the remote endpoint produces for one HTTP attempt, as
discriminated by `TikTokClient._make_request` (lines 120-240 of
`src/services/tiktok_client.py`).  `accepted` is a 202 whose JSON body
carries a `success` flag; `timeout` / `httpError` are the httpx transport
exceptions. -/
inductive HttpStatus where
  | ok
  | accepted (success : Bool)
  | rateLimited
  | notFound
  | unauthorized
  | otherStatus (code : Nat)
  | timeout
  | httpError (msg : String)
deriving DecidableEq

/-- How one `_make_request` call ends: a parsed JSON body, a
`RateLimitError`, or a `TikTokAPIError`. -/
inductive RequestOutcome where
  | success
  | rateLimitError (msg : String)
  | apiError (msg : String)
deriving DecidableEq

/-- Observable pacing behaviour of `_make_request`: sleeps (in seconds) and
outbound HTTP attempts, in order. -/
inductive TraceEvent where
  | sleep (seconds : Nat)
  | httpAttempt
deriving DecidableEq

/-- The backoff schedule `backoff_seconds = 5 * (2 ** attempt)` of line 199:
5s, 10s, 20s for attempts 0, 1, 2. -/
def backoff_seconds (attempt : Nat) : Nat := 5 * 2 ^ attempt

/-- The `for attempt in range(max_retries + 1)` loop of `_make_request`
(lines 158-237).  `resp n` is the status of the `n`-th attempt.  Each loop
iteration issues one HTTP attempt; a 202 with `success = false` raises
`TikTokAPIError` (validation error) and a 202 with `success = true` falls
through to the `status != 200` check and also raises `TikTokAPIError`; a
429 sleeps the escalating backoff and retries while `attempt <
max_retries`, else raises `RateLimitError`; 404 / 401 / other statuses and
transport exceptions raise `TikTokAPIError`; 200 returns.  The fuel is the
remaining loop iterations; falling off the loop is the safety
`RateLimitError` of line 240. -/
def request_loop (resp : Nat → HttpStatus) (max_retries : Nat) :
    Nat → Nat → List TraceEvent × RequestOutcome
  | _, 0 => ([], .rateLimitError "Unexpected retry loop exit")
  | attempt, fuel + 1 =>
    match resp attempt with
    | .ok => ([.httpAttempt], .success)
    | .accepted success =>
        if success then
          ([.httpAttempt], .apiError "API request failed with status 202")
        else
          ([.httpAttempt], .apiError "API validation error")
    | .rateLimited =>
        if attempt < max_retries then
          let next := request_loop resp max_retries (attempt + 1) fuel
          (.httpAttempt :: .sleep (backoff_seconds attempt) :: next.1, next.2)
        else
          ([.httpAttempt],
           .rateLimitError "Rate limit exceeded after max attempts")
    | .notFound => ([.httpAttempt], .apiError "Endpoint not found")
    | .unauthorized => ([.httpAttempt], .apiError "Invalid API key")
    | .otherStatus _ => ([.httpAttempt], .apiError "API request failed")
    | .timeout => ([.httpAttempt], .apiError "Request timeout")
    | .httpError m => ([.httpAttempt], .apiError m)

/-- `TikTokClient._make_request`: under the global lock, sleep the fixed
2.0-second pre-request delay once (line 156), then run the attempt loop.
Returns the pacing trace and the outcome. -/
def make_request (resp : Nat → HttpStatus) (max_retries : Nat) :
    List TraceEvent × RequestOutcome :=
  let run := request_loop resp max_retries 0 (max_retries + 1)
  (.sleep 2 :: run.1, run.2)

/-- Whether every HTTP attempt in a trace is immediately preceded by a
sleep of `d` seconds; the first argument carries the previous event. -/
def attempts_preceded_by (d : Nat) : Option TraceEvent → List TraceEvent → Bool
  | _, [] => true
  | prev, e :: rest =>
      (match e with
       | .httpAttempt => prev == some (.sleep d)
       | .sleep _ => true) && attempts_preceded_by d (some e) rest

/-- The pacing property claimed for the client: every attempt, retries
included, is immediately preceded by the fixed 2-second pre-request delay. -/
def every_attempt_after_fixed_delay (trace : List TraceEvent) : Bool :=
  attempts_preceded_by 2 none trace

/-- Number of outbound HTTP attempts in a trace. -/
def attempt_count (trace : List TraceEvent) : Nat :=
  trace.countP (fun e => e == .httpAttempt)

/-! ### Test fixtures and helper lemmas -/

/-- Fixture: a stored content row with the given id, view count and flags,
other fields defaulted. -/
def mkPost (row_id views : Nat) (viral sent : Bool) : Post :=
  { id := row_id, profile_id := 1, platform := "tiktok",
    platform_post_id := "p", tiktok_post_id := "p",
    view_count := views, like_count := 0, comment_count := 0,
    share_count := 0, is_viral := viral, viral_alert_sent := sent }

/-- Fixture: fetched post data with the given platform id and view count. -/
def mkData (pid : String) (views : Nat) : TikTokPost :=
  { post_id := pid, view_count := views, like_count := 0,
    comment_count := 0, share_count := 0 }

theorem views_changed_significantly_self (n : Nat) :
    views_changed_significantly n n = some false := by
  unfold views_changed_significantly pyDiv
  by_cases h : 0 < n
  · have hne : ((n : ℚ)) ≠ 0 := by
      exact_mod_cast (Nat.pos_iff_ne_zero.mp h)
    simp [h, hne]
  · simp [h]

theorem views_changed_significantly_pos (o n : Nat) (h : 0 < o) :
    views_changed_significantly o n
      = some (decide (|(n : ℚ) - (o : ℚ)| / (o : ℚ) > 1 / 10)) := by
  have hne : ((o : ℚ)) ≠ 0 := by
    exact_mod_cast (Nat.pos_iff_ne_zero.mp h)
  unfold views_changed_significantly pyDiv
  simp [h, hne]

/-! ### Claims -/

/-- C8: viral classification uses a strict greater-than comparison of the
primary metric against average times the threshold multiplier; with average
100 and threshold 5.0, a view count of 501 is viral and 500 is not, and
`_create_post_record` classifies new rows with exactly this comparison. -/
theorem C8_viral_strict_boundary :
    (∀ (view_count : Nat) (avg threshold : ℚ),
        is_viral_check view_count avg threshold = true
          ↔ (view_count : ℚ) > avg * threshold)
  ∧ is_viral_check 501 100 5 = true
  ∧ is_viral_check 500 100 5 = false
  ∧ (∀ (row_id profile_id : Nat) (d : TikTokPost) (avg threshold : ℚ),
        (create_post_record threshold row_id profile_id d avg).is_viral
          = is_viral_check d.view_count avg threshold) :=
  ⟨fun _ _ _ => by simp [is_viral_check], by norm_num [is_viral_check],
   by norm_num [is_viral_check], fun _ _ _ _ _ => rfl⟩

/-- C10: when the stored view count is 0, the significant-change test of
`_upsert_post` is short-circuited: it yields `false` without evaluating the
division (never `ZeroDivisionError`, modelled as `none`), so upserting an
existing row with stored metric 0 never appends a `PostHistory` row no
matter how large the new metric is. -/
theorem C10_zero_stored_no_snapshot :
    (∀ new_views : Nat, views_changed_significantly 0 new_views = some false)
  ∧ (∀ old_views new_views : Nat,
        views_changed_significantly old_views new_views ≠ none)
  ∧ (∀ (threshold avg : ℚ) (existing : Post) (d : TikTokPost),
        existing.view_count = 0 →
        (upsert_existing threshold existing d avg).2.2 = none) := by
  refine ⟨fun n => by simp [views_changed_significantly], ?_, ?_⟩
  · intro o n
    by_cases h : 0 < o
    · rw [views_changed_significantly_pos o n h]
      simp
    · have ho : o = 0 := Nat.eq_zero_of_not_pos h
      subst ho
      simp [views_changed_significantly]
  · intro t avg e d h
    unfold upsert_existing
    simp [h, views_changed_significantly]

/-- Witness for C10: the zero-stored-metric branch at a concrete input —
stored views 0, fresh views 1000000 append no history row. -/
theorem C10_zero_stored_no_snapshot_witness :
    (upsert_existing 5 (mkPost 1 0 false false) (mkData "p" 1000000) 100).2.2
      = none :=
  C10_zero_stored_no_snapshot.2.2 5 100 (mkPost 1 0 false false)
    (mkData "p" 1000000) rfl

/-- C7: upserting an existing row appends a `PostHistory` (ContentSnapshot)
row exactly when the view count moved by more than 10% relative to the
(positive) stored value — 1000 → 1150 writes one, 1000 → 1050 does not —
and upserting the same fetched item a second time with unchanged metrics
writes no history row and leaves the stored row unchanged (no drift).  The
relative-change predicate presupposes a positive stored value; the zero
stored value case is the subject of C10. -/
theorem C7_snapshot_threshold_and_idempotence :
    (∀ (threshold avg : ℚ) (existing : Post) (d : TikTokPost),
        0 < existing.view_count →
        (((upsert_existing threshold existing d avg).2.2).isSome
          ↔ |(d.view_count : ℚ) - (existing.view_count : ℚ)|
              / (existing.view_count : ℚ) > 1 / 10))
  ∧ ((upsert_existing 5 (mkPost 1 1000 false false) (mkData "p" 1150) 100).2.2).isSome
      = true
  ∧ ((upsert_existing 5 (mkPost 1 1000 false false) (mkData "p" 1050) 100).2.2).isSome
      = false
  ∧ (∀ (threshold avg : ℚ) (existing : Post) (d : TikTokPost),
        (upsert_existing threshold
            (upsert_existing threshold existing d avg).1 d avg).1
          = (upsert_existing threshold existing d avg).1
      ∧ (upsert_existing threshold
            (upsert_existing threshold existing d avg).1 d avg).2.2
          = none) := by
  have key : ∀ (threshold avg : ℚ) (existing : Post) (d : TikTokPost),
      0 < existing.view_count →
      (((upsert_existing threshold existing d avg).2.2).isSome
        ↔ |(d.view_count : ℚ) - (existing.view_count : ℚ)|
            / (existing.view_count : ℚ) > 1 / 10) := by
    intro t avg e d h
    simp only [upsert_existing]
    rw [views_changed_significantly_pos e.view_count d.view_count h]
    by_cases hc : |(d.view_count : ℚ) - (e.view_count : ℚ)|
        / (e.view_count : ℚ) > 1 / 10
    · simp [hc]
    · simp [hc]
  refine ⟨key, ?_, ?_, ?_⟩
  · rw [key 5 100 (mkPost 1 1000 false false) (mkData "p" 1150) (by norm_num [mkPost])]
    norm_num [mkPost, mkData]
  · rw [show (((upsert_existing 5 (mkPost 1 1000 false false)
        (mkData "p" 1050) 100).2.2).isSome = false)
        ↔ ¬ (((upsert_existing 5 (mkPost 1 1000 false false)
        (mkData "p" 1050) 100).2.2).isSome = true) from by simp]
    rw [key 5 100 (mkPost 1 1000 false false) (mkData "p" 1050) (by norm_num [mkPost])]
    norm_num [mkPost, mkData]
  · intro t avg e d
    constructor
    · cases e with
      | mk id pid plat ppid tpid vc lc cc sc viral sent =>
        simp [upsert_existing, Bool.or_assoc]
    · unfold upsert_existing
      simp [views_changed_significantly_self]

/-- Witness for C7: the positive-stored-value characterization at the
concrete 1000 → 1150 input. -/
theorem C7_snapshot_threshold_and_idempotence_witness :
    ((upsert_existing 5 (mkPost 2 1000 false false) (mkData "q" 1150) 100).2.2).isSome
      ↔ |((1150 : Nat) : ℚ) - ((1000 : Nat) : ℚ)| / ((1000 : Nat) : ℚ) > 1 / 10 :=
  C7_snapshot_threshold_and_idempotence.1 5 100 (mkPost 2 1000 false false)
    (mkData "q" 1150) (by norm_num [mkPost])

theorem upsert_existing_flag (threshold avg : ℚ) (e : Post) (d : TikTokPost) :
    (upsert_existing threshold e d avg).1.viral_alert_sent
      = e.viral_alert_sent := rfl

theorem upsert_existing_should_alert (threshold avg : ℚ) (e : Post) (d : TikTokPost) :
    (upsert_existing threshold e d avg).2.1
      = (is_viral_check d.view_count avg threshold && !e.viral_alert_sent) := rfl

theorem send_viral_alert_returns_flag (ok : Bool) (err : Option String)
    (profile_id : Nat) (avg : ℚ) (p : Post) :
    (send_viral_alert (.returns ok err) profile_id avg p).1.viral_alert_sent
      = true := by
  by_cases h : avg = 0 <;> simp [send_viral_alert, h]

theorem run_cycle_of_sent (threshold : ℚ) (profile_id : Nat) (p : Post)
    (inp : CycleInput) (h : p.viral_alert_sent = true) :
    (run_cycle threshold profile_id p inp).1.viral_alert_sent = true
  ∧ (run_cycle threshold profile_id p inp).2.1 = false := by
  simp [run_cycle, upsert_existing_should_alert, upsert_existing_flag, h]

theorem run_cycles_of_sent (threshold : ℚ) (profile_id : Nat) :
    ∀ (inputs : List CycleInput) (p : Post), p.viral_alert_sent = true →
    (run_cycles threshold profile_id p inputs).2 = 0 := by
  intro inputs
  induction inputs with
  | nil => intro p _; rfl
  | cons inp rest ih =>
      intro p h
      have step := run_cycle_of_sent threshold profile_id p inp h
      simp [run_cycles, step.2, ih _ step.1]

theorem run_cycle_trigger_flag (threshold : ℚ) (profile_id : Nat) (p : Post)
    (inp : CycleInput) (hret : inp.delivery.isReturns = true)
    (htrig : (run_cycle threshold profile_id p inp).2.1 = true) :
    (run_cycle threshold profile_id p inp).1.viral_alert_sent = true := by
  unfold run_cycle at htrig ⊢
  by_cases hs : (upsert_existing threshold p inp.data inp.avg_views).2.1 = true
  · simp only [hs, if_true]
    cases hd : inp.delivery with
    | returns ok err => simp [send_viral_alert_returns_flag]
    | raises e => rw [hd] at hret; simp [DeliveryOutcome.isReturns] at hret
  · simp [hs] at htrig

/-- C1 counterexample: the claim's at-most-one-notification consequence
fails when a delivery attempt raises.  A row with view count 100 against
average 100 (threshold 5) is observed viral twice; the first delivery
attempt raises (so the `except` branch of `_send_viral_alert` skips the
`viral_alert_sent = True` line), and the second cycle triggers a second
notification: two notifications are triggered for one item. -/
theorem C1_counterexample :
    ¬ ((run_cycles 5 1 (mkPost 1 100 false false)
        [{ data := mkData "p" 600, avg_views := 100,
           delivery := .raises "JSONDecodeError" },
         { data := mkData "p" 600, avg_views := 100,
           delivery := .returns true none }]).2 ≤ 1) := by
  have hv : is_viral_check 600 100 5 = true := by norm_num [is_viral_check]
  simp [run_cycles, run_cycle, upsert_existing_should_alert, hv, mkPost,
    mkData, upsert_existing, send_viral_alert]

/-- C1 (amended): the alert-sent flag only ever transitions false → true
and never reverts; alert eligibility is exactly
`isViral AND NOT alertSent` (for fresh rows the flag is initialized false,
so eligibility degenerates to `isViral`); and over any sequence of update
cycles observing the same item, at most one viral notification is
triggered — provided every delivery attempt returns a result rather than
raising (a raising attempt leaves the flag false and permits a repeat
notification, see the counterexample). -/
theorem C1_alert_once :
    (∀ (threshold : ℚ) (profile_id : Nat) (p : Post) (inp : CycleInput),
        p.viral_alert_sent = true →
        (run_cycle threshold profile_id p inp).1.viral_alert_sent = true)
  ∧ (∀ (threshold avg : ℚ) (existing : Post) (d : TikTokPost),
        (upsert_existing threshold existing d avg).2.1
          = (is_viral_check d.view_count avg threshold
              && !existing.viral_alert_sent))
  ∧ (∀ (threshold avg : ℚ) (row_id profile_id : Nat) (d : TikTokPost),
        (create_post_record threshold row_id profile_id d avg).viral_alert_sent
          = false)
  ∧ (∀ (threshold : ℚ) (profile_id : Nat) (p : Post)
        (inputs : List CycleInput),
        (∀ inp ∈ inputs, inp.delivery.isReturns = true) →
        (run_cycles threshold profile_id p inputs).2 ≤ 1) := by
  refine ⟨fun t pid p inp h => (run_cycle_of_sent t pid p inp h).1,
    fun _ _ _ _ => rfl, fun _ _ _ _ _ => rfl, ?_⟩
  intro t pid p inputs
  induction inputs generalizing p with
  | nil => intro _; simp [run_cycles]
  | cons inp rest ih =>
      intro h
      by_cases htrig : (run_cycle t pid p inp).2.1 = true
      · have hflag := run_cycle_trigger_flag t pid p inp
          (h inp (List.mem_cons_self inp rest)) htrig
        have hzero := run_cycles_of_sent t pid rest
          (run_cycle t pid p inp).1 hflag
        simp [run_cycles, htrig, hzero]
      · have hrest := ih (run_cycle t pid p inp).1
          (fun i hi => h i (List.mem_cons_of_mem inp hi))
        simp only [run_cycles, Bool.not_eq_true] at htrig ⊢
        simp [htrig, hrest]

/-- Witness for C1 (amended): a concrete already-alerted row keeps its flag
through a cycle, and at most one notification is triggered over two
concrete viral cycles whose deliveries both return. -/
theorem C1_alert_once_witness :
    (run_cycle 5 1 (mkPost 1 600 true true)
        { data := mkData "p" 700, avg_views := 100,
          delivery := .returns true none }).1.viral_alert_sent = true
  ∧ (run_cycles 5 1 (mkPost 1 100 false false)
        [{ data := mkData "p" 600, avg_views := 100,
           delivery := .returns true none },
         { data := mkData "p" 600, avg_views := 100,
           delivery := .returns false (some "bad gateway") }]).2 ≤ 1 :=
  ⟨C1_alert_once.1 5 1 (mkPost 1 600 true true)
      { data := mkData "p" 700, avg_views := 100,
        delivery := .returns true none } rfl,
   C1_alert_once.2.2.2 5 1 (mkPost 1 100 false false) _
      (by intro inp hi; fin_cases hi <;> rfl)⟩

/-- C3 counterexample: when the delivery attempt raises (e.g. the Telegram
response body is not JSON, so `response.json()` raises an exception the
`except httpx.HTTPError` handler of `send_message` does not catch), the
`except` branch of `_send_viral_alert` appends a failure `AlertLog` but
never reaches the `viral_alert_sent = True` line: the flag stays false,
contradicting the claim that it is set regardless of delivery outcome. -/
theorem C3_counterexample :
    ¬ ((send_viral_alert (.raises "JSONDecodeError") 1 100
        (mkPost 1 600 true false)).1.viral_alert_sent = true) := by
  simp [send_viral_alert, mkPost]

/-- C3 (amended): for every alert-eligible item, exactly one `AlertLog` is
appended recording the outcome and any error text — but the row's
alert-sent flag is only set to true when the delivery call *returns*
(successfully or with a failure result); when the delivery call raises, the
flag is left unchanged.  The alert loop appends exactly one record per
eligible item. -/
theorem C3_alert_record_always_flag_on_return :
    (∀ (outcome : DeliveryOutcome) (profile_id : Nat) (avg : ℚ) (p : Post),
        (send_viral_alert outcome profile_id avg p).1.viral_alert_sent
          = (outcome.isReturns || p.viral_alert_sent))
  ∧ (∀ (outcome : DeliveryOutcome) (profile_id : Nat) (avg : ℚ) (p : Post),
        (send_viral_alert outcome profile_id avg p).1.is_viral = p.is_viral)
  ∧ (∀ (outcome : DeliveryOutcome) (profile_id : Nat) (avg : ℚ) (p : Post),
        (send_viral_alert outcome profile_id avg p).2.success = true →
        outcome.isReturns = true ∧ avg ≠ 0)
  ∧ (∀ (e : String) (profile_id : Nat) (avg : ℚ) (p : Post),
        (send_viral_alert (.raises e) profile_id avg p).2.success = false
      ∧ (send_viral_alert (.raises e) profile_id avg p).2.error_message
          = some e)
  ∧ (∀ (profile_id : Nat) (avg : ℚ) (deliveries : Nat → DeliveryOutcome)
        (db : DB) (eligible : List Post) (k : Nat),
        (send_alerts profile_id avg deliveries db eligible k).alert_logs.length
          = db.alert_logs.length + eligible.length) := by
  refine ⟨?_, ?_, ?_, fun e pid avg p => ⟨rfl, rfl⟩, ?_⟩
  · intro outcome pid avg p
    cases outcome with
    | returns ok err => by_cases h : avg = 0 <;> simp [send_viral_alert, h,
        DeliveryOutcome.isReturns]
    | raises e => simp [send_viral_alert, DeliveryOutcome.isReturns]
  · intro outcome pid avg p
    cases outcome with
    | returns ok err => by_cases h : avg = 0 <;> simp [send_viral_alert, h]
    | raises e => rfl
  · intro outcome pid avg p
    cases outcome with
    | returns ok err =>
        by_cases h : avg = 0
        · simp [send_viral_alert, h]
        · simp [send_viral_alert, h, DeliveryOutcome.isReturns]
    | raises e => simp [send_viral_alert]
  · intro pid avg deliveries db eligible
    induction eligible generalizing db with
    | nil => intro k; rfl
    | cons p rest ih =>
        intro k
        simp [send_alerts, ih]
        omega

/-- Witness for C3 (amended): the success-implies-returned implication at a
concrete successful delivery. -/
theorem C3_alert_record_always_flag_on_return_witness :
    DeliveryOutcome.isReturns (.returns true none) = true ∧ (100 : ℚ) ≠ 0 :=
  C3_alert_record_always_flag_on_return.2.2.1 (.returns true none) 1 100
    (mkPost 1 600 true false) (by norm_num [send_viral_alert])

/-- Fixture: a stored account row with the given id, handle and active
flag, other fields defaulted. -/
def mkProfile (row_id : Nat) (username : String) (active : Bool) : Profile :=
  { id := row_id, platform := "tiktok", tiktok_user_id := "sec123",
    username := username, follower_count := 10, following_count := 2,
    total_likes := 5, video_count := 3, average_post_views := 100,
    is_active := active }

/-- Fixture: an empty store. -/
def emptyDB : DB :=
  { profiles := [], posts := [], post_history := [], profile_history := [],
    alert_logs := [], next_post_id := 1 }

/-- C4 counterexample: `remove_profile` looks the row up by username only —
the query does not filter on `is_active` — so removing an account that is
already inactive returns `True`, not the `False` the claim requires. -/
theorem C4_counterexample :
    ¬ ((remove_profile
        { emptyDB with profiles := [mkProfile 1 "alice" false] } "alice").2
      = false) := by
  decide

/-- C4 (amended): `remove_profile` is a soft delete — an absent handle
returns false and leaves the store unchanged; a present handle (whether the
row is active or already inactive) clears the row's active flag and returns
true; no row is ever removed (row count is preserved), and the operation is
idempotent on the stored state.  Only the already-inactive case deviates
from the claim: it returns true, not false. -/
theorem C4_remove_soft_delete :
    (∀ (db : DB) (username : String),
        db.profiles.find? (fun p => p.username == normalize_handle username)
          = none →
        remove_profile db username = (db, false))
  ∧ (∀ (db : DB) (username : String) (prof : Profile),
        db.profiles.find? (fun p => p.username == normalize_handle username)
          = some prof →
          (remove_profile db username).2 = true
        ∧ (remove_profile db username).1.profiles.length = db.profiles.length
        ∧ (∃ q ∈ (remove_profile db username).1.profiles,
            q.id = prof.id ∧ q.is_active = false))
  ∧ (∀ (db : DB) (username : String),
        (remove_profile (remove_profile db username).1 username).1
          = (remove_profile db username).1) := by
  refine ⟨?_, ?_, ?_⟩
  · intro db username h
    simp [remove_profile, h]
  · intro db username prof h
    refine ⟨by simp [remove_profile, h], by simp [remove_profile, h], ?_⟩
    refine ⟨{ prof with is_active := false }, ?_, rfl, rfl⟩
    simp only [remove_profile, h]
    have hmem := List.mem_of_find?_eq_some h
    have himg := List.mem_map_of_mem
      (fun p => if p.id == prof.id then { p with is_active := false } else p)
      hmem
    simpa using himg
  · intro db username
    cases h : db.profiles.find?
        (fun p => p.username == normalize_handle username) with
    | none => simp [remove_profile, h]
    | some prof =>
        have hpres : (fun p : Profile =>
            p.username == normalize_handle username) ∘
            (fun p => if p.id == prof.id then { p with is_active := false }
                      else p)
          = (fun p : Profile => p.username == normalize_handle username) := by
          funext x
          by_cases hx : x.id = prof.id <;> simp [hx]
        have hfind2 : (db.profiles.map
            (fun p => if p.id == prof.id then { p with is_active := false }
                      else p)).find?
            (fun p => p.username == normalize_handle username)
          = some { prof with is_active := false } := by
          rw [List.find?_map, hpres, h]
          simp
        simp only [remove_profile, h, hfind2]
        congr 1
        rw [List.map_map]
        apply List.map_congr_left
        intro x _
        by_cases hx : x.id = prof.id <;> simp [hx]

/-- Witness for C4 (amended): removing from an empty store returns false
and changes nothing; removing an existing active account at a concrete
store returns true, keeps the row, and leaves it inactive. -/
theorem C4_remove_soft_delete_witness :
    remove_profile emptyDB "ghost" = (emptyDB, false)
  ∧ (remove_profile { emptyDB with profiles := [mkProfile 1 "bob" true] }
        "@Bob ").2 = true
  ∧ (remove_profile { emptyDB with profiles := [mkProfile 1 "bob" true] }
        "@Bob ").1.profiles.length
      = ({ emptyDB with
            profiles := [mkProfile 1 "bob" true] } : DB).profiles.length
  ∧ (∃ q ∈ (remove_profile
        { emptyDB with profiles := [mkProfile 1 "bob" true] }
        "@Bob ").1.profiles, q.id = (mkProfile 1 "bob" true).id
      ∧ q.is_active = false) :=
  ⟨C4_remove_soft_delete.1 emptyDB "ghost" rfl,
   C4_remove_soft_delete.2.1
    { emptyDB with profiles := [mkProfile 1 "bob" true] } "@Bob "
    (mkProfile 1 "bob" true) (by decide)⟩

/-- C5 counterexample: on persistent 429 responses with the default
`max_retries = 3`, the loop `for attempt in range(max_retries + 1)` issues
four HTTP attempts (one initial plus three retries) before raising
`RateLimitError` — not the three attempts the claim states. -/
theorem C5_counterexample :
    ¬ (attempt_count (make_request (fun _ => .rateLimited) 3).1 = 3) := by
  decide

/-- C5 (amended): on persistent rate-limit responses the client retries up
to the fixed maximum of 3 with the escalating backoff schedule 5s, 10s,
20s between attempts, and exhausting the retries after *4 total attempts*
(the initial attempt plus 3 retries) raises the terminal `RateLimitError`
and performs no further attempts — the full pacing trace is exactly the
pre-request delay, four attempts and the three backoff sleeps. -/
theorem C5_retry_exhaustion :
    ∀ resp : Nat → HttpStatus, (∀ n, resp n = .rateLimited) →
      make_request resp 3
        = ([.sleep 2, .httpAttempt, .sleep 5, .httpAttempt, .sleep 10,
            .httpAttempt, .sleep 20, .httpAttempt],
           .rateLimitError "Rate limit exceeded after max attempts") := by
  intro resp h
  have hresp : resp = fun _ => .rateLimited := funext h
  subst hresp
  decide

/-- Witness for C5 (amended): the always-429 response function. -/
theorem C5_retry_exhaustion_witness :
    make_request (fun _ => .rateLimited) 3
      = ([.sleep 2, .httpAttempt, .sleep 5, .httpAttempt, .sleep 10,
          .httpAttempt, .sleep 20, .httpAttempt],
         .rateLimitError "Rate limit exceeded after max attempts") :=
  C5_retry_exhaustion (fun _ => .rateLimited) (fun _ => rfl)

/-- C6 counterexample: a request whose first attempt hits a 429 and whose
retry then succeeds.  The 2-second pre-request delay is slept once before
the loop (line 156 of `src/services/tiktok_client.py`), so the retry
attempt is immediately preceded by the 5-second backoff sleep, not by the
fixed 2-second delay: the claimed every-attempt pacing property is false. -/
theorem C6_counterexample :
    ¬ (every_attempt_after_fixed_delay
        (make_request (fun n => if n = 0 then .rateLimited else .ok) 3).1
      = true) := by
  decide

theorem request_loop_shape (resp : Nat → HttpStatus) (max_retries : Nat) :
    ∀ (fuel attempt : Nat), fuel = max_retries + 1 - attempt →
      attempt ≤ max_retries →
      ∃ k, attempt + k ≤ max_retries ∧
        (request_loop resp max_retries attempt fuel).1
          = TraceEvent.httpAttempt ::
              ((List.range k).map
                (fun i => [TraceEvent.sleep (backoff_seconds (attempt + i)),
                           TraceEvent.httpAttempt])).flatten := by
  intro fuel
  induction fuel with
  | zero => intro attempt hfuel hle; omega
  | succ fuel ih =>
      intro attempt hfuel hle
      cases hr : resp attempt with
      | rateLimited =>
          by_cases hlt : attempt < max_retries
          · obtain ⟨k, hk, htrace⟩ := ih (attempt + 1) (by omega) (by omega)
            refine ⟨k + 1, by omega, ?_⟩
            simp only [request_loop, hr, hlt, if_true, htrace]
            rw [List.range_succ_eq_map]
            simp only [List.map_cons, List.flatten_cons, List.map_map,
              Nat.add_zero, List.cons_append, List.nil_append]
            have hmap : (List.range k).map
                ((fun i => [TraceEvent.sleep (backoff_seconds (attempt + i)),
                            TraceEvent.httpAttempt]) ∘ Nat.succ)
              = (List.range k).map
                (fun i => [TraceEvent.sleep (backoff_seconds (attempt + 1 + i)),
                           TraceEvent.httpAttempt]) := by
              apply List.map_congr_left
              intro i _
              simp only [Function.comp_apply, Nat.succ_eq_add_one]
              rw [show attempt + (i + 1) = attempt + 1 + i from by omega]
            rw [hmap]
          · refine ⟨0, by omega, ?_⟩
            simp [request_loop, hr, hlt]
      | ok => exact ⟨0, by omega, by simp [request_loop, hr]⟩
      | accepted success =>
          refine ⟨0, by omega, ?_⟩
          cases success <;> simp [request_loop, hr]
      | notFound => exact ⟨0, by omega, by simp [request_loop, hr]⟩
      | unauthorized => exact ⟨0, by omega, by simp [request_loop, hr]⟩
      | otherStatus c => exact ⟨0, by omega, by simp [request_loop, hr]⟩
      | timeout => exact ⟨0, by omega, by simp [request_loop, hr]⟩
      | httpError m => exact ⟨0, by omega, by simp [request_loop, hr]⟩

/-- C6 (amended): the fixed 2-second pre-request delay is slept exactly
once per request, immediately before the *first* attempt; each of the `k ≤
max_retries` retry attempts is instead immediately preceded by its
escalating backoff sleep of `5 * 2 ^ i` seconds.  The full pacing trace of
every request has exactly this shape. -/
theorem C6_fixed_delay_before_first_attempt :
    ∀ (resp : Nat → HttpStatus) (max_retries : Nat),
      ∃ k, k ≤ max_retries ∧
        (make_request resp max_retries).1
          = TraceEvent.sleep 2 :: TraceEvent.httpAttempt ::
              ((List.range k).map
                (fun i => [TraceEvent.sleep (backoff_seconds i),
                           TraceEvent.httpAttempt])).flatten := by
  intro resp max_retries
  obtain ⟨k, hk, htrace⟩ := request_loop_shape resp max_retries
    (max_retries + 1) 0 (by omega) (by omega)
  refine ⟨k, by omega, ?_⟩
  simp only [make_request, htrace]
  simp

/-- The C2 scenario store: three active tiktok accounts A, B, C. -/
def syncScenarioDB : DB :=
  { emptyDB with profiles :=
      [mkProfile 1 "a" true, mkProfile 2 "b" true, mkProfile 3 "c" true] }

/-- The C2 scenario fetches: A and C resolve (with no posts), B's remote
fetch raises a network error, which `TikTokClient._make_request` wraps in
`TikTokAPIError` (`except httpx.HTTPError: raise TikTokAPIError(...)`). -/
def syncScenarioFetch : Nat → FetchOutcome := fun profile_id =>
  if profile_id = 1 then
    .ok { user_id := "secA", username := "a", follower_count := 11,
          following_count := 1, total_likes := 2, video_count := 3 } []
  else if profile_id = 2 then .apiError "NetworkError"
  else
    .ok { user_id := "secC", username := "c", follower_count := 33,
          following_count := 1, total_likes := 2, video_count := 3 } []

/-- C2: evaluating the bulk sync on the claim's scenario `{A: ok, B: throws
NetworkError, C: ok}`.  The code reports success = 3 and failed = 0 — not
the claimed success = 2, failed = 1 — because `update_profile_by_id`
catches `TikTokAPIError` (lines 435-437 of `src/scraper.py`) and returns
`None`, and the orchestrator counts every call that returns (rather than
raises) as a success.  A's and C's fresh state is committed; B's row is
untouched and the batch proceeds past B. -/
theorem C2_network_failure_counted_as_success :
    (update_all_profiles 5 syncScenarioDB syncScenarioFetch
        (fun _ _ => .returns true none)).2.success = 3
  ∧ (update_all_profiles 5 syncScenarioDB syncScenarioFetch
        (fun _ _ => .returns true none)).2.failed = 0
  ∧ ((update_all_profiles 5 syncScenarioDB syncScenarioFetch
        (fun _ _ => .returns true none)).1.profiles.map
        (fun p => (p.id, p.follower_count)))
      = [(1, 11), (2, 10), (3, 33)]
  ∧ (update_all_profiles 5 syncScenarioDB syncScenarioFetch
        (fun _ _ => .returns true none)).1.profiles.find?
        (fun p => p.id == 2)
      = some (mkProfile 2 "b" true) := by
  refine ⟨?_, ?_, ?_, ?_⟩ <;> decide

theorem send_viral_alert_fields (o : DeliveryOutcome) (profile_id : Nat)
    (avg : ℚ) (p : Post) :
    (send_viral_alert o profile_id avg p).1.id = p.id
  ∧ (send_viral_alert o profile_id avg p).1.is_viral = p.is_viral
  ∧ (send_viral_alert o profile_id avg p).1.tiktok_post_id
      = p.tiktok_post_id := by
  cases o with
  | returns ok err => by_cases h : avg = 0 <;> simp [send_viral_alert, h]
  | raises e => exact ⟨rfl, rfl, rfl⟩

theorem replacePost_append (l : List Post) (p q : Post)
    (h : ∀ r ∈ l, r.id ≠ p.id) :
    replacePost (l ++ [p]) p.id q = l ++ [q] := by
  induction l with
  | nil => simp [replacePost]
  | cons a rest ih =>
      have ha : ¬ (a.id = p.id) := h a (List.mem_cons_self a rest)
      have hrest := ih (fun r hr => h r (List.mem_cons_of_mem a hr))
      simp only [replacePost, List.map_cons, List.cons_append] at hrest ⊢
      rw [if_neg (by simpa using ha)]
      exact congrArg (a :: ·) hrest

theorem upsert_posts_single_fresh (threshold avg : ℚ) (profile_id : Nat)
    (db : DB) (d : TikTokPost)
    (hfresh : db.posts.find? (fun p => p.tiktok_post_id == d.post_id) = none) :
    upsert_posts threshold profile_id avg db [d]
      = ({ db with
            posts := db.posts
              ++ [create_post_record threshold db.next_post_id profile_id d avg]
            next_post_id := db.next_post_id + 1 },
         if is_viral_check d.view_count avg threshold
           then [create_post_record threshold db.next_post_id profile_id d avg]
           else []) := by
  simp only [upsert_posts, upsert_post, hfresh]
  cases is_viral_check d.view_count avg threshold <;> simp

theorem insert_posts_shape (threshold avg : ℚ) (profile_id : Nat) :
    ∀ (ds : List TikTokPost) (db : DB),
      ∃ rows, (insert_posts threshold profile_id avg db ds).posts
          = db.posts ++ rows
      ∧ rows.length = ds.length
      ∧ ∀ i, i < ds.length →
          (rows.getD i default).is_viral
            = is_viral_check ((ds.getD i (mkData "" 0)).view_count) avg threshold
        ∧ (rows.getD i default).viral_alert_sent = false := by
  intro ds
  induction ds with
  | nil =>
      intro db
      exact ⟨[], by simp [insert_posts], rfl,
        fun i hi => absurd hi (by simp)⟩
  | cons d rest ih =>
      intro db
      obtain ⟨rows, hposts, hlen, hflags⟩ := ih
        { db with
          posts := db.posts
            ++ [create_post_record threshold db.next_post_id profile_id d avg]
          next_post_id := db.next_post_id + 1 }
      refine ⟨create_post_record threshold db.next_post_id profile_id d avg
          :: rows, ?_, by simpa using hlen, ?_⟩
      · simpa [insert_posts] using hposts
      · intro i hi
        cases i with
        | zero => exact ⟨rfl, rfl⟩
        | succ j =>
            have := hflags j (by simpa using hi)
            simpa using this

theorem update_posts_fresh_single (threshold avg : ℚ) (profile_id : Nat)
    (deliveries : Nat → DeliveryOutcome) (db1 : DB) (d : TikTokPost)
    (h2 : db1.posts.find? (fun p => p.tiktok_post_id == d.post_id) = none)
    (h3 : ∀ q ∈ db1.posts, q.id ≠ db1.next_post_id) :
    ∃ row,
      (send_alerts profile_id avg deliveries
          (upsert_posts threshold profile_id avg db1 [d]).1
          (upsert_posts threshold profile_id avg db1 [d]).2 0).posts
        = db1.posts ++ [row]
    ∧ row.tiktok_post_id = d.post_id
    ∧ row.is_viral = is_viral_check d.view_count avg threshold := by
  rw [upsert_posts_single_fresh threshold avg profile_id db1 d h2]
  by_cases hv : is_viral_check d.view_count avg threshold = true
  · simp only [hv, if_true, send_alerts]
    rw [replacePost_append db1.posts _ _ h3]
    exact ⟨_, rfl, (send_viral_alert_fields _ _ _ _).2.2,
      by rw [(send_viral_alert_fields _ _ _ _).2.1]; exact hv⟩
  · simp only [Bool.not_eq_true] at hv
    simp only [hv, Bool.false_eq_true, if_false, send_alerts]
    exact ⟨_, rfl, rfl, hv⟩

/-- C9: during an update cycle the virality of a fetched content item is
evaluated against the account's *pre-update* stored average (the freshly
stored average becomes the recomputed one, yet the inserted row's viral
flag is computed from the old one), while during an add cycle every
inserted row is evaluated against the *just-computed* average over the
fetched content. -/
theorem C9_average_asymmetry :
    (∀ (threshold : ℚ) (db : DB) (profile_id : Nat)
        (pdata : TikTokProfileData) (d : TikTokPost)
        (deliveries : Nat → DeliveryOutcome) (prof : Profile),
        db.profiles.find? (fun p => p.id == profile_id) = some prof →
        db.posts.find? (fun p => p.tiktok_post_id == d.post_id) = none →
        (∀ q ∈ db.posts, q.id ≠ db.next_post_id) →
        ∃ row,
          (update_profile_by_id threshold db profile_id (.ok pdata [d])
              deliveries).1.posts = db.posts ++ [row]
        ∧ row.tiktok_post_id = d.post_id
        ∧ row.is_viral
            = is_viral_check d.view_count prof.average_post_views threshold
        ∧ ∃ prof2,
            (update_profile_by_id threshold db profile_id (.ok pdata [d])
                deliveries).2 = .ok (some prof2)
          ∧ prof2.average_post_views = calculate_average_views [d])
  ∧ (∀ (threshold : ℚ) (db : DB) (new_profile_id : Nat)
        (pdata : TikTokProfileData) (ds : List TikTokPost),
        ∃ rows,
          (add_profile_fresh threshold db new_profile_id pdata ds).1.posts
            = db.posts ++ rows
        ∧ rows.length = ds.length
        ∧ (∀ i, i < ds.length →
            (rows.getD i default).is_viral
              = is_viral_check ((ds.getD i (mkData "" 0)).view_count)
                  (calculate_average_views ds) threshold)
        ∧ (add_profile_fresh threshold db new_profile_id pdata
            ds).2.average_post_views = calculate_average_views ds) := by
  constructor
  · intro t db pid pdata d dv prof h1 h2 h3
    simp only [update_profile_by_id, h1]
    let profile2 : Profile := { prof with
      tiktok_user_id :=
        if prof.tiktok_user_id ≠ "" then prof.tiktok_user_id else pdata.user_id
      follower_count := pdata.follower_count
      following_count := pdata.following_count
      total_likes := pdata.total_likes
      video_count := pdata.video_count
      average_post_views := calculate_average_views [d] }
    have key := update_posts_fresh_single t prof.average_post_views pid dv
      { db with
        profiles := db.profiles.map
          (fun p => if p.id == pid then profile2 else p)
        profile_history := db.profile_history ++
          [{ profile_id := prof.id
             follower_count := pdata.follower_count
             following_count := pdata.following_count
             total_likes := pdata.total_likes
             video_count := pdata.video_count
             follower_change :=
               (pdata.follower_count : Int) - (prof.follower_count : Int)
             likes_change :=
               (pdata.total_likes : Int) - (prof.total_likes : Int) }] }
      d h2 h3
    obtain ⟨row, hposts, hrowid, hrowviral⟩ := key
    exact ⟨row, hposts, hrowid, hrowviral, profile2, rfl, rfl⟩
  · intro t db nid pdata ds
    obtain ⟨rows, hposts, hlen, hflags⟩ :=
      insert_posts_shape t (calculate_average_views ds) nid ds
        { db with
          profiles := db.profiles ++
            [{ id := nid, platform := "tiktok",
               tiktok_user_id := pdata.user_id, username := pdata.username,
               follower_count := pdata.follower_count,
               following_count := pdata.following_count,
               total_likes := pdata.total_likes,
               video_count := pdata.video_count,
               average_post_views := calculate_average_views ds,
               is_active := true }]
          profile_history := db.profile_history ++
            [{ profile_id := nid,
               follower_count := pdata.follower_count,
               following_count := pdata.following_count,
               total_likes := pdata.total_likes,
               video_count := pdata.video_count,
               follower_change := 0, likes_change := 0 }] }
    exact ⟨rows, hposts, hlen, fun i hi => (hflags i hi).1, rfl⟩

/-- Witness for C9: the update-side asymmetry at a concrete store — one
profile with stored average 100 and a fresh fetched item with 600 views. -/
theorem C9_average_asymmetry_witness :
    ∃ row,
      (update_profile_by_id 5
          { emptyDB with profiles := [mkProfile 1 "a" true] } 1
          (.ok { user_id := "secA", username := "a", follower_count := 11,
                 following_count := 1, total_likes := 2, video_count := 3 }
            [mkData "x" 600])
          (fun _ => .returns true none)).1.posts
        = ({ emptyDB with profiles := [mkProfile 1 "a" true] } : DB).posts
            ++ [row]
    ∧ row.tiktok_post_id = (mkData "x" 600).post_id
    ∧ row.is_viral
        = is_viral_check (mkData "x" 600).view_count
            (mkProfile 1 "a" true).average_post_views 5
    ∧ ∃ prof2,
        (update_profile_by_id 5
            { emptyDB with profiles := [mkProfile 1 "a" true] } 1
            (.ok { user_id := "secA", username := "a", follower_count := 11,
                   following_count := 1, total_likes := 2, video_count := 3 }
              [mkData "x" 600])
            (fun _ => .returns true none)).2 = .ok (some prof2)
      ∧ prof2.average_post_views = calculate_average_views [mkData "x" 600] :=
  C9_average_asymmetry.1 5 { emptyDB with profiles := [mkProfile 1 "a" true] }
    1 { user_id := "secA", username := "a", follower_count := 11,
        following_count := 1, total_likes := 2, video_count := 3 }
    (mkData "x" 600) (fun _ => .returns true none) (mkProfile 1 "a" true)
    (by decide) rfl (by simp [emptyDB])

end ContentDashboard
